import Mathlib

/-!
Verification of the PowerDNS-Operator reconciliation core.

This file shallowly embeds the reconciliation engine of the operator
(`internal/controller/common.go`, `pdns_helper.go`, the per-kind reconcile
drivers, and the metrics helpers) in Lean and proves or refutes the frozen
claims about it.

Modelling conventions:
- Go strings are modelled as `List Char` (`GoString`); string literals are
  written via `String.data`.
- Go pointers that may be nil are modelled as `Option`; dereferences that the
  surrounding code guards (or that hold for well-formed backend replies) are
  modelled by comparing under `Option`.
- Store (Kubernetes API) reads and writes are assumed to succeed; backend
  (PowerDNS HTTP API) call results are inputs to the embedded functions.
- Each reconcile run is modelled as a pure function from the resource and the
  environment (index listings, backend replies) to an output that records the
  ordered trace of persisted updates, status patches and backend calls.
-/

set_option linter.unusedVariables false

/-- Go strings, modelled as lists of characters. -/
abbrev GoString := List Char

/-- Go `strings.HasSuffix`. -/
def goHasSuffix (s suffix : GoString) : Bool :=
  suffix.isSuffixOf s

/-- Go `strings.TrimSuffix`: drops one occurrence of `suffix` from the end of
`s` when present. -/
def goTrimSuffix (s suffix : GoString) : GoString :=
  if goHasSuffix s suffix then s.take (s.length - suffix.length) else s

/-- `makeCanonical` from `pdns_helper.go`: the empty string is returned as is;
otherwise one trailing dot is appended after trimming one trailing dot. -/
def makeCanonical (s : GoString) : GoString :=
  if s ≠ [] then goTrimSuffix s ['.'] ++ ['.'] else []

/-! ### Constants (`zone_controller.go`, `rrset_controller.go`, `pdns_helper.go`) -/

def FAILED_STATUS : GoString := ("Failed").data

def PENDING_STATUS : GoString := ("Pending").data

def SUCCEEDED_STATUS : GoString := ("Succeeded").data

def RESOURCES_FINALIZER_NAME : GoString := ("dns.cav.enablers.ob/external-resources").data

def METRICS_FINALIZER_NAME : GoString := ("dns.cav.enablers.ob/metrics").data

def ZONE_NOT_FOUND_MSG : GoString := ("Not Found").data

def DEFAULT_TTL_FOR_NS_RECORDS : Nat := 1500

def RrsetReasonZoneNotAvailable : GoString := ("ZoneNotAvailable").data

def RrsetReasonSynchronizationFailed : GoString := ("SynchronizationFailed").data

def RrsetReasonDuplicated : GoString := ("RrsetDuplicated").data

def RrsetReasonSynced : GoString := ("RrsetSynced").data

def RrsetMessageDuplicated : GoString := ("Already existing RRset with the same FQDN").data

def RrsetMessageSyncSucceeded : GoString := ("RRset synced with PowerDNS instance").data

def RrsetMessageNonExistentZone : GoString := ("non-existent zone:").data

def RrsetMessageUnavailableZone : GoString := ("unavailable zone:").data

def ZoneReasonSynced : GoString := ("ZoneSynced").data

def ZoneMessageSyncSucceeded : GoString := ("Zone synced with PowerDNS instance").data

def ZoneReasonSynchronizationFailed : GoString := ("SynchronizationFailed").data

def ZoneReasonNSSynchronizationFailed : GoString := ("NSSynchronizationFailed").data

def ZoneReasonDuplicated : GoString := ("ZoneDuplicated").data

def ZoneMessageDuplicated : GoString := ("Already existing Zone with the same FQDN").data

/-- `metav1.ConditionTrue`. -/
def ConditionTrue : GoString := ("True").data

/-- `metav1.ConditionFalse`. -/
def ConditionFalse : GoString := ("False").data

/-- Condition type used throughout: `"Available"`. -/
def AvailableConditionType : GoString := ("Available").data

/-! ### Resource model (`api/v1alpha2`) -/

/-- `ZoneRef.Kind`, CRD-validated to the enum `Zone` or `ClusterZone`. -/
inductive ZoneRefKind where
  | zone
  | clusterZone
deriving DecidableEq, Repr

/-- `v1alpha2.ZoneRef`. -/
structure ZoneRef where
  name : GoString
  kind : ZoneRefKind
deriving DecidableEq, Repr

/-- `v1alpha2.RRsetSpec`. -/
structure RRsetSpec where
  type : GoString
  name : GoString
  ttl : Nat
  records : List GoString
  comment : Option GoString
  zoneRef : ZoneRef
deriving DecidableEq, Repr

/-- `getRRsetName` from `pdns_helper.go`: names not ending in a dot are
joined with the referenced zone name and canonicalized. -/
def getRRsetName (rrset : RRsetSpec) : GoString :=
  if ¬ goHasSuffix rrset.name ['.'] then
    makeCanonical (rrset.name ++ ['.'] ++ rrset.zoneRef.name)
  else
    makeCanonical rrset.name

/-- A `metav1.Condition` (observedGeneration omitted: unused by the code). -/
structure Condition where
  type : GoString
  status : GoString
  lastTransitionTime : Nat
  reason : GoString
  message : GoString
deriving DecidableEq, Repr

/-- `meta.SetStatusCondition`: update the condition with the matching type
(keeping its transition time when the status is unchanged) or append it. -/
def setStatusCondition (conds : List Condition) (c : Condition) : List Condition :=
  match conds.find? (fun x => x.type == c.type) with
  | none => conds ++ [c]
  | some _ =>
      conds.map (fun x =>
        if x.type == c.type then
          (if x.status == c.status then { c with lastTransitionTime := x.lastTransitionTime } else c)
        else x)

/-- `meta.RemoveStatusCondition`. -/
def removeStatusCondition (conds : List Condition) (t : GoString) : List Condition :=
  conds.filter (fun x => ! (x.type == t))

/-- `v1alpha2.RRsetStatus`. -/
structure RRsetStatus where
  lastUpdateTime : Option Nat
  dnsEntryName : Option GoString
  syncStatus : Option GoString
  conditions : List Condition
  observedGeneration : Option Int
deriving DecidableEq, Repr

/-- `v1alpha2.ZoneSpec`. -/
structure ZoneSpec where
  kind : GoString
  nameservers : List GoString
  catalog : Option GoString
  soaEditAPI : Option GoString
deriving DecidableEq, Repr

/-- `v1alpha2.ZoneStatus`. -/
structure ZoneStatus where
  id : Option GoString
  name : Option GoString
  kind : Option GoString
  serial : Option Nat
  notifiedSerial : Option Nat
  editedSerial : Option Nat
  masters : List GoString
  dnssec : Option Bool
  syncStatus : Option GoString
  catalog : Option GoString
  observedGeneration : Option Int
  conditions : List Condition
deriving DecidableEq, Repr

/-- A Zone or ClusterZone resource (`GenericZone`); `ns` is
`metadata.namespace`, empty for the cluster-scoped variant. -/
structure ZoneObj where
  name : GoString
  ns : GoString
  generation : Int
  deletionTimestamp : Option Nat
  finalizers : List GoString
  spec : ZoneSpec
  status : ZoneStatus
deriving DecidableEq, Repr

/-- An RRset or ClusterRRset resource (`GenericRRset`); `ns` is
`metadata.namespace`, empty for the cluster-scoped variant. -/
structure RRsetObj where
  name : GoString
  ns : GoString
  generation : Int
  deletionTimestamp : Option Nat
  finalizers : List GoString
  spec : RRsetSpec
  status : RRsetStatus
deriving DecidableEq, Repr

/-- `controllerutil.ContainsFinalizer`. -/
def containsFinalizer (finalizers : List GoString) (f : GoString) : Bool :=
  finalizers.contains f

/-- `controllerutil.AddFinalizer` (appends when absent). -/
def addFinalizer (finalizers : List GoString) (f : GoString) : List GoString :=
  if containsFinalizer finalizers f then finalizers else finalizers ++ [f]

/-- `controllerutil.RemoveFinalizer` (removes every occurrence). -/
def removeFinalizer (finalizers : List GoString) (f : GoString) : List GoString :=
  finalizers.filter (fun x => ! (x == f))

/-! ### Backend model (`go-powerdns` client results) -/

/-- A `powerdns.RRset` as returned by `Records.Get`. Pointer fields that the
controller explicitly tests for nil (`Name`, `TTL`) are `Option`; the other
pointer fields are dereferenced unguarded by the controller and are modelled
as present (well-formed backend replies). `records` and `comments` hold the
`Content` strings. -/
structure PdnsRRset where
  name : Option GoString
  type : GoString
  ttl : Option Nat
  records : List GoString
  comments : List GoString
deriving DecidableEq, Repr

/-- A `powerdns.Zone` snapshot; `name = none` models both a nil `Name` field
and the not-found reply (the controller only tests `zoneRes.Name == nil`). -/
structure PdnsZone where
  id : Option GoString
  name : Option GoString
  kind : GoString
  serial : Option Nat
  notifiedSerial : Option Nat
  editedSerial : Option Nat
  masters : List GoString
  dnssec : Option Bool
  soaEditAPI : Option GoString
  catalog : Option GoString
deriving DecidableEq, Repr

/-- A Go error together with what `k8s.io` `errors.IsNotFound` reports on it
(false for every error produced by the PowerDNS client). -/
structure GoErr where
  msg : GoString
  isK8sNotFound : Bool
deriving DecidableEq, Repr

/-- Reply of `Records.Get`. -/
structure RecordsGetReply where
  records : List PdnsRRset
  err : Option GoErr
deriving DecidableEq, Repr

/-- `rrsetIsIdenticalToExternalRRset` from `pdns_helper.go`: comments, name,
type, TTL and records must all match (only the first external comment is
inspected). -/
def rrsetIsIdenticalToExternalRRset (rrset : RRsetSpec) (externalRecord : PdnsRRset) : Bool :=
  let commentsIdentical : Bool :=
    match externalRecord.comments, rrset.comment with
    | c0 :: _, some c => c == c0
    | _ :: _, none => false
    | [], some _ => false
    | [], none => true
  (some (getRRsetName rrset) == externalRecord.name)
    && (rrset.type == externalRecord.type)
    && (some rrset.ttl == externalRecord.ttl)
    && commentsIdentical
    && (rrset.records == externalRecord.records)

/-- Result of `createOrUpdateRrsetExternalResources`: the returned `changed`
flag, whether `Records.Change` was invoked, and the returned error. -/
structure SyncResult where
  changed : Bool
  changeCalled : Bool
  err : Option GoString
deriving DecidableEq, Repr

/-- `createOrUpdateRrsetExternalResources` from `common.go`: get the backend
records, keep the first entry whose name equals the canonical entry name
(guarding against the backend returning comments of adjacent RRsets), no-op
when that entry is identical to the declared RRset, otherwise issue
`Records.Change`. `recordsGet` is the backend `Records.Get` reply and
`recordsChangeErr` the error of the `Records.Change` call, were it issued. -/
def createOrUpdateRrsetExternalResources (zone : ZoneObj) (rrset : RRsetSpec)
    (recordsGet : RecordsGetReply) (recordsChangeErr : Option GoString) : SyncResult :=
  let name := getRRsetName rrset
  let abort : Option GoString :=
    match recordsGet.err with
    | some e => if e.isK8sNotFound then none else some e.msg
    | none => none
  match abort with
  | some m => { changed := false, changeCalled := false, err := some m }
  | none =>
      let filteredRecord := recordsGet.records.find? (fun fr => fr.name == some (makeCanonical name))
      match filteredRecord with
      | some fr =>
          if rrsetIsIdenticalToExternalRRset rrset fr then
            { changed := false, changeCalled := false, err := none }
          else
            match recordsChangeErr with
            | some e => { changed := false, changeCalled := true, err := some e }
            | none => { changed := true, changeCalled := true, err := none }
      | none =>
          match recordsChangeErr with
          | some e => { changed := false, changeCalled := true, err := some e }
          | none => { changed := true, changeCalled := true, err := none }

/-! ### Reconcile traces

A reconcile run is recorded as the ordered list of its persisted store writes
(object updates and status patches) and its backend calls. -/

/-- A call to the PowerDNS backend. -/
inductive BackendCall where
  | zonesGet
  | zonesAdd
  | zonesChange
  | zonesDelete
  | recordsGet
  | recordsChange
  | recordsDelete
deriving DecidableEq, Repr

/-- One observable step of a reconcile run. -/
inductive Ev where
  | update (finalizers : List GoString)
  | rrsetStatusPatch (st : RRsetStatus)
  | zoneStatusPatch (st : ZoneStatus)
  | backend (c : BackendCall)
deriving DecidableEq, Repr

/-- Is the event a backend call? -/
def Ev.isBackend : Ev → Bool
  | .backend _ => true
  | _ => false

/-- The persisted finalizer lists of a trace, in order. -/
def updatesOf (tr : List Ev) : List (List GoString) :=
  tr.filterMap (fun e => match e with | .update fs => some fs | _ => none)

/-- Which branch of `rrsetReconcile` terminated the run. -/
inductive RRsetBranch where
  | deleted
  | failedSkip
  | duplicate
  | synced
deriving DecidableEq, Repr

/-- Output of a `rrsetReconcile` run. -/
structure RRsetRecOut where
  trace : List Ev
  err : Option GoString
  branch : RRsetBranch
  finalizers : List GoString
  patchedStatus : Option RRsetStatus
deriving DecidableEq, Repr

/-- `deleteRrsetExternalResources` from `common.go`: issue
`Records.Delete(zone.Name, getRRsetName(rrset), type)` and return its error
unchanged (no tolerance applied here). -/
def deleteRrsetExternalResources (zone : ZoneObj) (rrset : RRsetObj)
    (recordsDeleteErr : Option GoString) : Option GoString :=
  recordsDeleteErr

/-- Backend replies and clock for an RRset reconcile run. -/
structure RRsetEnv where
  recordsGet : RecordsGetReply
  recordsChangeErr : Option GoString
  recordsDeleteErr : Option GoString
  lookupErrMsg : GoString
  now : Nat
deriving DecidableEq, Repr

/-- `rrsetReconcile` from `common.go` (shared by the RRset and ClusterRRset
controllers). `existingRRsets` and `existingClusterRRsets` are the listings
of the two `"DnsEntryName/type"` indexes for this RRset's key; the backend
replies come from `env`. Store writes are assumed to succeed. -/
def rrsetReconcile (gr : RRsetObj) (zone : ZoneObj) (isModified isDeleted : Bool)
    (lastUpdateTime : Nat) (existingRRsets existingClusterRRsets : List RRsetObj)
    (env : RRsetEnv) : RRsetRecOut :=
  let isInFailedStatus := gr.status.syncStatus == some FAILED_STATUS
  if !isDeleted then
    -- register the resources finalizer when absent
    let hasRes := containsFinalizer gr.finalizers RESOURCES_FINALIZER_NAME
    let fs0 := if ¬ hasRes then addFinalizer gr.finalizers RESOURCES_FINALIZER_NAME else gr.finalizers
    let lastUpdateTime := if ¬ hasRes then env.now else lastUpdateTime
    let tr0 : List Ev := if ¬ hasRes then [.update fs0] else []
    if isInFailedStatus && !isModified then
      { trace := tr0, err := none, branch := .failedSkip, finalizers := fs0,
        patchedStatus := none }
    else if existingRRsets.length > 1
        || (existingRRsets.length ≥ 1 && existingClusterRRsets.length ≥ 1) then
      -- another RRset exists with the same DNS name: fail, no backend call
      let conditions := setStatusCondition gr.status.conditions
        { type := AvailableConditionType, status := ConditionFalse,
          lastTransitionTime := lastUpdateTime,
          reason := RrsetReasonDuplicated, message := RrsetMessageDuplicated }
      let name := getRRsetName gr.spec
      let st : RRsetStatus :=
        { lastUpdateTime := some lastUpdateTime, dnsEntryName := some name,
          syncStatus := some FAILED_STATUS, conditions := conditions,
          observedGeneration := some gr.generation }
      { trace := tr0 ++ [.rrsetStatusPatch st], err := none, branch := .duplicate,
        finalizers := fs0, patchedStatus := some st }
    else
      -- create or update against the backend
      let sync := createOrUpdateRrsetExternalResources zone gr.spec env.recordsGet env.recordsChangeErr
      let syncEvents : List Ev :=
        [.backend .recordsGet] ++ (if sync.changeCalled then [.backend .recordsChange] else [])
      let syncStatus : Option GoString :=
        match sync.err with | some _ => some FAILED_STATUS | none => none
      let conditionStatus := match sync.err with | some _ => ConditionFalse | none => ConditionTrue
      let conditionReason :=
        match sync.err with | some _ => RrsetReasonSynchronizationFailed | none => RrsetReasonSynced
      let conditionMessage :=
        match sync.err with | some e => e | none => RrsetMessageSyncSucceeded
      let lastUpdateTime := if sync.changed then env.now else lastUpdateTime
      -- ownObject: set the controller reference and update the object
      let ownEvents : List Ev := [.update fs0]
      let syncStatus := match syncStatus with | none => SUCCEEDED_STATUS | some s => s
      -- the code builds this condition list but the status struct literal
      -- below leaves its Conditions field at the zero value
      let _conditions := setStatusCondition gr.status.conditions
        { type := AvailableConditionType, status := conditionStatus,
          lastTransitionTime := lastUpdateTime,
          reason := conditionReason, message := conditionMessage }
      let name := getRRsetName gr.spec
      let st : RRsetStatus :=
        { lastUpdateTime := some lastUpdateTime, dnsEntryName := some name,
          syncStatus := some syncStatus, conditions := [],
          observedGeneration := some gr.generation }
      { trace := tr0 ++ syncEvents ++ ownEvents ++ [.rrsetStatusPatch st],
        err := none, branch := .synced, finalizers := fs0, patchedStatus := some st }
  else
    -- the object is being deleted
    if containsFinalizer gr.finalizers RESOURCES_FINALIZER_NAME then
      match deleteRrsetExternalResources zone gr env.recordsDeleteErr with
      | some e =>
          -- failing to delete the external resource aborts the reconcile
          { trace := [.backend .recordsDelete], err := some e, branch := .deleted,
            finalizers := gr.finalizers, patchedStatus := none }
      | none =>
          let fs1 := removeFinalizer gr.finalizers RESOURCES_FINALIZER_NAME
          let fs2 :=
            if containsFinalizer fs1 METRICS_FINALIZER_NAME then
              removeFinalizer fs1 METRICS_FINALIZER_NAME
            else fs1
          { trace := [.backend .recordsDelete, .update fs2], err := none,
            branch := .deleted, finalizers := fs2, patchedStatus := none }
    else
      if containsFinalizer gr.finalizers METRICS_FINALIZER_NAME then
        let fs2 := removeFinalizer gr.finalizers METRICS_FINALIZER_NAME
        { trace := [.update fs2], err := none, branch := .deleted,
          finalizers := fs2, patchedStatus := none }
      else
        { trace := [], err := none, branch := .deleted,
          finalizers := gr.finalizers, patchedStatus := none }

/-! ### Zone reconcile (`common.go`) -/

/-- `powerdns.RRTypeNS`. -/
def RRTypeNS : GoString := ("NS").data

/-- The zero value of `powerdns.RRset`. -/
def pdnsRRsetZero : PdnsRRset :=
  { name := none, type := [], ttl := none, records := [], comments := [] }

/-- `getZoneExternalResources`: a backend error other than the not-found
message is propagated; a not-found reply is swallowed (the returned snapshot
then has no name). -/
def getZoneExternalResources (zoneRes : PdnsZone) (err : Option GoString) :
    Except GoString PdnsZone :=
  match err with
  | some e => if ¬ (e == ZONE_NOT_FOUND_MSG) then .error e else .ok zoneRes
  | none => .ok zoneRes

/-- `createZoneExternalResources`: canonicalize nameservers and catalog, then
issue `Zones.Add` (its error is returned unchanged). -/
def createZoneExternalResources (zone : ZoneObj) (zonesAddErr : Option GoString) :
    Option GoString :=
  let nameservers := zone.spec.nameservers.map makeCanonical
  let catalog := zone.spec.catalog.map makeCanonical
  zonesAddErr

/-- `updateZoneExternalResources`: issue `Zones.Change` with the canonical
catalog (its error is returned unchanged). -/
def updateZoneExternalResources (zone : ZoneObj) (zonesChangeErr : Option GoString) :
    Option GoString :=
  let catalog := zone.spec.catalog.map makeCanonical
  zonesChangeErr

/-- `updateNsOnZoneExternalResources`: issue `Records.Change` for the apex NS
RRset with canonical nameservers (its error is returned unchanged). -/
def updateNsOnZoneExternalResources (zone : ZoneObj) (ttl : Nat)
    (recordsChangeErr : Option GoString) : Option GoString :=
  let nameserversCanonical := zone.spec.nameservers.map makeCanonical
  recordsChangeErr

/-- `deleteZoneExternalResources`: `Zones.Delete`; a not-found reply is not an
error (the zone may have already been deleted). -/
def deleteZoneExternalResources (zone : ZoneObj) (zonesDeleteErr : Option GoString) :
    Option GoString :=
  match zonesDeleteErr with
  | some e => if ¬ (e == ZONE_NOT_FOUND_MSG) then some e else none
  | none => none

/-- `zoneIsIdenticalToExternalZone` from `pdns_helper.go`: first component
compares kind, canonical catalog and SOA-EDIT-API; second compares the
declared nameservers with those passed in. -/
def zoneIsIdenticalToExternalZone (zone : ZoneObj) (externalZone : PdnsZone)
    (ns : List GoString) : Bool × Bool :=
  let zoneCatalog := makeCanonical (zone.spec.catalog.getD [])
  let externalZoneCatalog := externalZone.catalog.getD []
  let zoneSOAEditAPI := zone.spec.soaEditAPI.getD []
  let externalZoneSOAEditAPI := externalZone.soaEditAPI.getD []
  ((zone.spec.kind == externalZone.kind) && (zoneCatalog == externalZoneCatalog)
      && (zoneSOAEditAPI == externalZoneSOAEditAPI),
    zone.spec.nameservers == ns)

/-- Index listings, backend replies and clock for a zone reconcile run. -/
structure ZoneEnv where
  existingZones : List ZoneObj
  existingClusterZones : List ZoneObj
  zonesGet1Res : PdnsZone
  zonesGet1Err : Option GoString
  zonesGet2Res : PdnsZone
  zonesGet2Err : Option GoString
  recordsGetNSRecords : List PdnsRRset
  recordsGetNSErr : Option GoString
  zonesAddErr : Option GoString
  zonesChangeErr : Option GoString
  recordsChangeErr : Option GoString
  zonesDeleteErr : Option GoString
  now : Nat
deriving DecidableEq, Repr

/-- Return value of `zoneExternalResourcesReconcile` plus its backend events. -/
structure ZoneSyncOut where
  syncStatus : Option GoString
  conditionMessage : GoString
  conditionReason : GoString
  conditionStatus : GoString
  err : Option GoString
  events : List Ev
deriving DecidableEq, Repr

/-- `zoneExternalResourcesReconcile` from `common.go`: create the zone when
the snapshot has no name, otherwise fetch the apex NS RRset (keeping the last
entry that matches the canonical zone name, against backend over-reporting)
and apply a records change and/or a zone change when not identical. -/
def zoneExternalResourcesReconcile (zoneRes : PdnsZone) (gz : ZoneObj)
    (env : ZoneEnv) : ZoneSyncOut :=
  if zoneRes.name == none then
    match createZoneExternalResources gz env.zonesAddErr with
    | some e =>
        { syncStatus := some FAILED_STATUS, conditionMessage := e,
          conditionReason := ZoneReasonSynchronizationFailed,
          conditionStatus := ConditionFalse, err := none, events := [.backend .zonesAdd] }
    | none =>
        { syncStatus := none, conditionMessage := ZoneMessageSyncSucceeded,
          conditionReason := ZoneReasonSynced, conditionStatus := ConditionTrue,
          err := none, events := [.backend .zonesAdd] }
  else
    match env.recordsGetNSErr with
    | some e =>
        { syncStatus := none, conditionMessage := [], conditionReason := [],
          conditionStatus := [], err := some e, events := [.backend .recordsGet] }
    | none =>
        let filteredRRset := ((env.recordsGetNSRecords.filter (fun rr =>
            rr.name == some (makeCanonical gz.name) && rr.type == RRTypeNS)).getLast?).getD
          pdnsRRsetZero
        let nameservers := filteredRRset.records.map (fun n => goTrimSuffix n ['.'])
        let ident := zoneIsIdenticalToExternalZone gz zoneRes nameservers
        let zoneIdentical := ident.1
        let nsIdentical := ident.2
        let nsOut : Option GoString × List Ev :=
          if !nsIdentical then
            let ttl := match filteredRRset.ttl with
              | some t => t
              | none => DEFAULT_TTL_FOR_NS_RECORDS
            (updateNsOnZoneExternalResources gz ttl env.recordsChangeErr,
              [.backend .recordsChange])
          else (none, [])
        let zOut : Option GoString × List Ev :=
          if !zoneIdentical then
            (updateZoneExternalResources gz env.zonesChangeErr, [.backend .zonesChange])
          else (none, [])
        let verdict :=
          match zOut.1, nsOut.1 with
          | some e, _ =>
              (some FAILED_STATUS, ConditionFalse, ZoneReasonSynchronizationFailed, e)
          | none, some e =>
              (some FAILED_STATUS, ConditionFalse, ZoneReasonNSSynchronizationFailed, e)
          | none, none =>
              (none, ConditionTrue, ZoneReasonSynced, ZoneMessageSyncSucceeded)
        { syncStatus := verdict.1, conditionMessage := verdict.2.2.2,
          conditionReason := verdict.2.2.1, conditionStatus := verdict.2.1,
          err := none, events := [.backend .recordsGet] ++ nsOut.2 ++ zOut.2 }

/-- `patchZoneStatus` from `common.go`: the status struct written by the
final zone status patch. -/
def patchZoneStatus (zone : ZoneObj) (zoneRes : PdnsZone) (status : Option GoString)
    (condition : Condition) : ZoneStatus :=
  let kind := zoneRes.kind
  let conditions := setStatusCondition zone.status.conditions condition
  { id := zoneRes.id, name := zoneRes.name, kind := some kind,
    serial := zoneRes.serial, notifiedSerial := zoneRes.notifiedSerial,
    editedSerial := zoneRes.editedSerial, masters := zoneRes.masters,
    dnssec := zoneRes.dnssec, syncStatus := status, catalog := zoneRes.catalog,
    observedGeneration := some zone.generation, conditions := conditions }

/-- Which branch of `zoneReconcile` terminated the run. -/
inductive ZoneBranch where
  | deleted
  | failedSkip
  | duplicate
  | synced
  | errored
deriving DecidableEq, Repr

/-- Output of a `zoneReconcile` run. -/
structure ZoneRecOut where
  trace : List Ev
  err : Option GoString
  branch : ZoneBranch
  finalizers : List GoString
  patchedStatus : Option ZoneStatus
deriving DecidableEq, Repr

/-- `zoneReconcile` from `common.go` (shared by the Zone and ClusterZone
controllers). Store reads and writes are assumed to succeed; `env` carries
the index listings and backend replies. -/
def zoneReconcile (gz : ZoneObj) (isModified isDeleted : Bool) (env : ZoneEnv) :
    ZoneRecOut :=
  let isInFailedStatus := gz.status.syncStatus == some FAILED_STATUS
  if !isDeleted then
    -- register the resources finalizer when absent
    let hasRes := containsFinalizer gz.finalizers RESOURCES_FINALIZER_NAME
    let fs0 := if ¬ hasRes then addFinalizer gz.finalizers RESOURCES_FINALIZER_NAME else gz.finalizers
    let tr0 : List Ev := if ¬ hasRes then [.update fs0] else []
    if isInFailedStatus && !isModified then
      { trace := tr0, err := none, branch := .failedSkip, finalizers := fs0,
        patchedStatus := none }
    else if env.existingZones.length > 1
        || (env.existingZones.length ≥ 1 && env.existingClusterZones.length ≥ 1) then
      -- a Zone already exists with the same DNS name
      let conditions := setStatusCondition gz.status.conditions
        { type := AvailableConditionType, status := ConditionFalse,
          lastTransitionTime := env.now,
          reason := ZoneReasonDuplicated, message := ZoneMessageDuplicated }
      let st : ZoneStatus :=
        { id := none, name := none, kind := none, serial := none,
          notifiedSerial := none, editedSerial := none, masters := [],
          dnssec := none, syncStatus := some FAILED_STATUS, catalog := none,
          observedGeneration := some gz.generation, conditions := conditions }
      { trace := tr0 ++ [.zoneStatusPatch st], err := none, branch := .duplicate,
        finalizers := fs0, patchedStatus := some st }
    else
      match getZoneExternalResources env.zonesGet1Res env.zonesGet1Err with
      | .error e =>
          { trace := tr0 ++ [.backend .zonesGet], err := some e, branch := .errored,
            finalizers := fs0, patchedStatus := none }
      | .ok zoneRes =>
          let so := zoneExternalResourcesReconcile zoneRes gz env
          match so.err with
          | some e =>
              { trace := tr0 ++ [.backend .zonesGet] ++ so.events, err := some e,
                branch := .errored, finalizers := fs0, patchedStatus := none }
          | none =>
              let syncStatus := match so.syncStatus with
                | none => SUCCEEDED_STATUS
                | some s => s
              match getZoneExternalResources env.zonesGet2Res env.zonesGet2Err with
              | .error e =>
                  { trace := tr0 ++ [.backend .zonesGet] ++ so.events ++ [.backend .zonesGet],
                    err := some e, branch := .errored, finalizers := fs0,
                    patchedStatus := none }
              | .ok zoneRes2 =>
                  let st := patchZoneStatus gz zoneRes2 (some syncStatus)
                    { type := AvailableConditionType, status := so.conditionStatus,
                      lastTransitionTime := env.now,
                      reason := so.conditionReason, message := so.conditionMessage }
                  { trace := tr0 ++ [.backend .zonesGet] ++ so.events
                      ++ [.backend .zonesGet, .zoneStatusPatch st],
                    err := none, branch := .synced, finalizers := fs0,
                    patchedStatus := some st }
  else
    -- the object is being deleted
    if containsFinalizer gz.finalizers RESOURCES_FINALIZER_NAME then
      match deleteZoneExternalResources gz env.zonesDeleteErr with
      | some e =>
          -- failing to delete the external resource aborts the reconcile
          { trace := [.backend .zonesDelete], err := some e, branch := .deleted,
            finalizers := gz.finalizers, patchedStatus := none }
      | none =>
          let fs1 := removeFinalizer gz.finalizers RESOURCES_FINALIZER_NAME
          let fs2 :=
            if containsFinalizer fs1 METRICS_FINALIZER_NAME then
              removeFinalizer fs1 METRICS_FINALIZER_NAME
            else fs1
          { trace := [.backend .zonesDelete, .update fs2], err := none,
            branch := .deleted, finalizers := fs2, patchedStatus := none }
    else
      if containsFinalizer gz.finalizers METRICS_FINALIZER_NAME then
        let fs2 := removeFinalizer gz.finalizers METRICS_FINALIZER_NAME
        { trace := [.update fs2], err := none, branch := .deleted,
          finalizers := fs2, patchedStatus := none }
      else
        { trace := [], err := none, branch := .deleted,
          finalizers := gz.finalizers, patchedStatus := none }

/-! ### Metrics (`metrics.go`, Prometheus gauge vectors) -/

/-- A Prometheus label assignment, as an ordered association list. -/
abbrev Labels := List (GoString × GoString)

/-- A gauge vector: one value per distinct label assignment. -/
abbrev GaugeVec := List (Labels × Nat)

/-- Does every pair of the partial match occur in the label assignment? -/
def labelsMatch (m ls : Labels) : Bool :=
  m.all (fun p => ls.contains p)

/-- `GaugeVec.With(...).Set(v)`: replace the value of this exact label
assignment, creating the series when absent. -/
def gaugeSet (g : GaugeVec) (ls : Labels) (v : Nat) : GaugeVec :=
  if g.any (fun e => e.1 == ls) then
    g.map (fun e => if e.1 == ls then (e.1, v) else e)
  else
    g ++ [(ls, v)]

/-- `GaugeVec.DeletePartialMatch`: drop every series whose labels contain the
partial match. -/
def gaugeDeletePartialMatch (g : GaugeVec) (m : Labels) : GaugeVec :=
  g.filter (fun e => ! labelsMatch m e.1)

def lFqdn : GoString := ("fqdn").data

def lType : GoString := ("type").data

def lStatus : GoString := ("status").data

def lName : GoString := ("name").data

def lNamespace : GoString := ("namespace").data

/-- The four registered gauge vectors. -/
structure MetricsState where
  rrsetsStatusesMetric : GaugeVec
  clusterRrsetsStatusesMetric : GaugeVec
  zonesStatusesMetric : GaugeVec
  clusterZonesStatusesMetric : GaugeVec
deriving DecidableEq, Repr

def emptyMetricsState : MetricsState :=
  { rrsetsStatusesMetric := [], clusterRrsetsStatusesMetric := [],
    zonesStatusesMetric := [], clusterZonesStatusesMetric := [] }

/-- The dynamic type of a `GenericRRset` (the `switch gr.(type)`). -/
inductive RRsetVariant where
  | rrset
  | clusterRRset
deriving DecidableEq, Repr

/-- The dynamic type of a `GenericZone` (the `switch gz.(type)`). -/
inductive ZoneVariant where
  | zone
  | clusterZone
deriving DecidableEq, Repr

/-- `updateRrsetsMetrics` from `metrics.go`: set the series of the resource's
current status to 1 (on the gauge of the resource's variant). -/
def updateRrsetsMetrics (fqdn : GoString) (variant : RRsetVariant) (gr : RRsetObj)
    (st : MetricsState) : MetricsState :=
  match variant with
  | .rrset =>
      { st with rrsetsStatusesMetric := (gaugeSet st.rrsetsStatusesMetric
          [(lFqdn, fqdn), (lType, gr.spec.type), (lStatus, gr.status.syncStatus.getD []),
            (lName, gr.name), (lNamespace, gr.ns)] 1) }
  | .clusterRRset =>
      { st with clusterRrsetsStatusesMetric := (gaugeSet st.clusterRrsetsStatusesMetric
          [(lFqdn, fqdn), (lType, gr.spec.type), (lStatus, gr.status.syncStatus.getD []),
            (lName, gr.name)] 1) }

/-- `removeRrsetMetrics` from `metrics.go`. The type switch has a case for
namespaced RRsets only (deleting from both rrset gauges by name); for a
ClusterRRset it falls through and removes nothing. -/
def removeRrsetMetrics (variant : RRsetVariant) (gr : RRsetObj) (st : MetricsState) :
    MetricsState :=
  match variant with
  | .rrset =>
      let st1 := { st with rrsetsStatusesMetric := (gaugeDeletePartialMatch
          st.rrsetsStatusesMetric [(lNamespace, gr.ns), (lName, gr.name)]) }
      { st1 with clusterRrsetsStatusesMetric := (gaugeDeletePartialMatch
          st1.clusterRrsetsStatusesMetric [(lName, gr.name)]) }
  | .clusterRRset => st

/-- `updateZonesMetrics` from `metrics.go`. -/
def updateZonesMetrics (variant : ZoneVariant) (gz : ZoneObj) (st : MetricsState) :
    MetricsState :=
  match variant with
  | .zone =>
      { st with zonesStatusesMetric := (gaugeSet st.zonesStatusesMetric
          [(lStatus, gz.status.syncStatus.getD []), (lName, gz.name), (lNamespace, gz.ns)] 1) }
  | .clusterZone =>
      { st with clusterZonesStatusesMetric := (gaugeSet st.clusterZonesStatusesMetric
          [(lStatus, gz.status.syncStatus.getD []), (lName, gz.name)] 1) }

/-- `removeZonesMetrics` from `metrics.go`. -/
def removeZonesMetrics (variant : ZoneVariant) (gz : ZoneObj) (st : MetricsState) :
    MetricsState :=
  match variant with
  | .zone =>
      { st with zonesStatusesMetric := (gaugeDeletePartialMatch
          st.zonesStatusesMetric [(lNamespace, gz.ns), (lName, gz.name)]) }
  | .clusterZone =>
      { st with clusterZonesStatusesMetric := (gaugeDeletePartialMatch
          st.clusterZonesStatusesMetric [(lName, gz.name)]) }

/-! ### Secondary indexes and the ClusterRRset driver
(`rrset_controller.go`, `clusterrrset_controller.go`) -/

/-- The `"RRset.Entry.Name"` index value of a namespaced RRset: resources in
nil or Succeeded sync status are indexed under `DnsEntryName/type`, others
under the empty key. -/
def rrsetEntryIndexValue (r : RRsetObj) : GoString :=
  if r.status.syncStatus == none || r.status.syncStatus == some SUCCEEDED_STATUS then
    getRRsetName r.spec ++ ['/'] ++ r.spec.type
  else []

/-- The `"ClusterRRset.Entry.Name"` index value (same rule). -/
def clusterRRsetEntryIndexValue (r : RRsetObj) : GoString :=
  if r.status.syncStatus == none || r.status.syncStatus == some SUCCEEDED_STATUS then
    getRRsetName r.spec ++ ['/'] ++ r.spec.type
  else []

/-- `cl.List` with `MatchingFields` on the RRset index. -/
def listRRsetsByEntryName (rrsets : List RRsetObj) (key : GoString) : List RRsetObj :=
  rrsets.filter (fun r => rrsetEntryIndexValue r == key)

/-- `cl.List` with `MatchingFields` on the ClusterRRset index. -/
def listClusterRRsetsByEntryName (clusterRRsets : List RRsetObj) (key : GoString) :
    List RRsetObj :=
  clusterRRsets.filter (fun r => clusterRRsetEntryIndexValue r == key)

/-- The resource store visible to a driver run. -/
structure Store where
  zones : List ZoneObj
  clusterZones : List ZoneObj
  rrsets : List RRsetObj
  clusterRRsets : List RRsetObj
deriving DecidableEq, Repr

/-- Which branch of the ClusterRRset driver terminated the run. -/
inductive DriverBranch where
  | zoneNotFound
  | zoneFailed
  | dispatched
deriving DecidableEq, Repr

/-- Output of a ClusterRRset driver run. -/
structure DriverOut where
  trace : List Ev
  err : Option GoString
  requeueAfterSeconds : Option Nat
  branch : DriverBranch
  finalizers : List GoString
  patchedStatus : Option RRsetStatus
deriving DecidableEq, Repr

/-- `ClusterRRsetReconciler.Reconcile` from `clusterrrset_controller.go`:
compute the situation flags, install the metrics finalizer, clear the
`Available` condition on modification, resolve the parent zone through the
store (using the resource's own — empty — namespace for a `Zone` reference),
handle the zone-missing and zone-Failed branches, and otherwise dispatch to
`rrsetReconcile` with both index listings. -/
def clusterRRsetDriverReconcile (rrset0 : RRsetObj) (store : Store) (env : RRsetEnv) :
    DriverOut :=
  let isModified :=
    match rrset0.status.observedGeneration with
    | some g => g != rrset0.generation
    | none => false
  let isDeleted := rrset0.deletionTimestamp.isSome
  let lastUpdateTime := rrset0.status.lastUpdateTime.getD env.now
  -- position the metrics finalizer as soon as possible
  let addMet := !isDeleted && ¬ containsFinalizer rrset0.finalizers METRICS_FINALIZER_NAME
  let fs0 := if addMet then addFinalizer rrset0.finalizers METRICS_FINALIZER_NAME else rrset0.finalizers
  let lastUpdateTime := if addMet then env.now else lastUpdateTime
  let tr0 : List Ev := if addMet then [.update fs0] else []
  let rrset := { rrset0 with finalizers := fs0 }
  -- delete the Available condition to force a fresh transition time
  let condCleared :=
    if !isDeleted && isModified then
      { rrset.status with conditions := removeStatusCondition rrset.status.conditions AvailableConditionType }
    else rrset.status
  let tr1 : List Ev :=
    if !isDeleted && isModified then [.rrsetStatusPatch condCleared] else []
  let rrset := { rrset with status := condCleared }
  -- resolve the referenced zone
  let zoneLookup : Option ZoneObj :=
    match rrset.spec.zoneRef.kind with
    | .zone => store.zones.find? (fun z => z.ns == rrset.ns && z.name == rrset.spec.zoneRef.name)
    | .clusterZone => store.clusterZones.find? (fun z => z.name == rrset.spec.zoneRef.name)
  match zoneLookup with
  | none =>
      -- zone not found: drop finalizers as applicable and requeue shortly
      let dropRes := containsFinalizer rrset.finalizers RESOURCES_FINALIZER_NAME
      let fs1 := if dropRes then removeFinalizer rrset.finalizers RESOURCES_FINALIZER_NAME else rrset.finalizers
      let dropMet := isDeleted && containsFinalizer fs1 METRICS_FINALIZER_NAME
      let fs2 := if dropMet then removeFinalizer fs1 METRICS_FINALIZER_NAME else fs1
      let tr2 : List Ev := if dropRes || dropMet then [.update fs2] else []
      let pending : Option RRsetStatus :=
        if !isDeleted then
          some { rrset.status with
            syncStatus := some PENDING_STATUS,
            observedGeneration := some rrset.generation,
            conditions := setStatusCondition rrset.status.conditions
              { type := AvailableConditionType, status := ConditionFalse,
                lastTransitionTime := env.now,
                reason := RrsetReasonZoneNotAvailable,
                message := RrsetMessageNonExistentZone ++ env.lookupErrMsg } }
        else none
      let tr3 : List Ev := match pending with
        | some st => [.rrsetStatusPatch st]
        | none => []
      { trace := tr0 ++ tr1 ++ tr2 ++ tr3, err := none, requeueAfterSeconds := some 2,
        branch := .zoneNotFound, finalizers := fs2, patchedStatus := pending }
  | some zone =>
      let zoneIsInFailedStatus := zone.status.syncStatus == some FAILED_STATUS
      if zoneIsInFailedStatus then
        let st : RRsetStatus :=
          { rrset.status with
            syncStatus := some FAILED_STATUS,
            observedGeneration := some rrset.generation,
            conditions := setStatusCondition rrset.status.conditions
              { type := AvailableConditionType, status := ConditionFalse,
                lastTransitionTime := env.now,
                reason := RrsetReasonZoneNotAvailable,
                message := RrsetMessageUnavailableZone ++ zone.name } }
        let dropMet := isDeleted && containsFinalizer rrset.finalizers METRICS_FINALIZER_NAME
        let fs3 := if dropMet then removeFinalizer rrset.finalizers METRICS_FINALIZER_NAME else rrset.finalizers
        let tr3 : List Ev := if dropMet then [.update fs3] else []
        { trace := tr0 ++ tr1 ++ [.rrsetStatusPatch st] ++ tr3, err := none,
          requeueAfterSeconds := none, branch := .zoneFailed, finalizers := fs3,
          patchedStatus := some st }
      else
        let key := getRRsetName rrset.spec ++ ['/'] ++ rrset.spec.type
        let existingRRsets := listRRsetsByEntryName store.rrsets key
        let existingClusterRRsets := listClusterRRsetsByEntryName store.clusterRRsets key
        let inner := rrsetReconcile rrset zone isModified isDeleted lastUpdateTime
          existingRRsets existingClusterRRsets env
        { trace := tr0 ++ tr1 ++ inner.trace, err := inner.err,
          requeueAfterSeconds := none, branch := .dispatched,
          finalizers := inner.finalizers, patchedStatus := inner.patchedStatus }

/-! ### Claim-side predicates and concrete fixtures -/

/-- The spec's comment-equality notion, stated independently of the code:
no comment on either side, or the declared comment equal to the content of
the backend's (first) comment. -/
def commentsPresenceContentEqual (comment : Option GoString)
    (externalComments : List GoString) : Bool :=
  match externalComments, comment with
  | c0 :: _, some c => c == c0
  | _ :: _, none => false
  | [], some _ => false
  | [], none => true

/-- The spec's formalization of "the resources finalizer disappears in a
strictly earlier persisted revision than the metrics finalizer": some
persisted finalizer list already lacks the resources finalizer while still
carrying the metrics finalizer. -/
def strictFinalizerRemovalOrder (updates : List (List GoString)) : Prop :=
  ∃ u ∈ updates,
    containsFinalizer u RESOURCES_FINALIZER_NAME = false
      ∧ containsFinalizer u METRICS_FINALIZER_NAME = true

instance (updates : List (List GoString)) :
    Decidable (strictFinalizerRemovalOrder updates) := by
  unfold strictFinalizerRemovalOrder
  infer_instance

/-- An all-`none` RRset status (Go zero value). -/
def rrsetStatusZero : RRsetStatus :=
  { lastUpdateTime := none, dnsEntryName := none, syncStatus := none,
    conditions := [], observedGeneration := none }

/-- An all-`none` zone status (Go zero value). -/
def zoneStatusZero : ZoneStatus :=
  { id := none, name := none, kind := none, serial := none,
    notifiedSerial := none, editedSerial := none, masters := [],
    dnssec := none, syncStatus := none, catalog := none,
    observedGeneration := none, conditions := [] }

/-- An all-`none` zone snapshot (Go zero value / not-found reply). -/
def pdnsZoneZero : PdnsZone :=
  { id := none, name := none, kind := [], serial := none,
    notifiedSerial := none, editedSerial := none, masters := [],
    dnssec := none, soaEditAPI := none, catalog := none }

def sampleZoneSpec : ZoneSpec :=
  { kind := ("Native").data, nameservers := [("ns1.example.org").data],
    catalog := none, soaEditAPI := none }

/-- A healthy ClusterZone `example.org`. -/
def sampleClusterZone : ZoneObj :=
  { name := ("example.org").data, ns := [], generation := 1,
    deletionTimestamp := none,
    finalizers := [METRICS_FINALIZER_NAME, RESOURCES_FINALIZER_NAME],
    spec := sampleZoneSpec,
    status := { zoneStatusZero with syncStatus := some SUCCEEDED_STATUS } }

/-- An RRset spec `test` of type A under `example.org`. -/
def sampleRRsetSpec : RRsetSpec :=
  { type := ("A").data, name := ("test").data, ttl := 300,
    records := [("1.1.1.1").data], comment := none,
    zoneRef := { name := ("example.org").data, kind := .clusterZone } }

/-- A backend entry identical to `sampleRRsetSpec`. -/
def sampleExternalRecord : PdnsRRset :=
  { name := some (("test.example.org.").data), type := ("A").data,
    ttl := some 300, records := [("1.1.1.1").data], comments := [] }

/-- A backend reply whose single entry is identical to `sampleRRsetSpec`. -/
def sampleIdenticalReply : RecordsGetReply :=
  { records := [sampleExternalRecord], err := none }

/-- A backend reply with no matching entry. -/
def emptyRecordsReply : RecordsGetReply := { records := [], err := none }

/-- Environment with an in-sync backend. -/
def sampleRRsetEnvIdentical : RRsetEnv :=
  { recordsGet := sampleIdenticalReply, recordsChangeErr := none,
    recordsDeleteErr := none, lookupErrMsg := [], now := 7 }

/-- Environment with an empty backend. -/
def sampleRRsetEnvEmpty : RRsetEnv :=
  { recordsGet := emptyRecordsReply, recordsChangeErr := none,
    recordsDeleteErr := none, lookupErrMsg := [], now := 7 }

/-- A fresh namespaced RRset carrying both finalizers (fixture for C3). -/
def c3RRset : RRsetObj :=
  { name := ("r3").data, ns := ("default").data, generation := 2,
    deletionTimestamp := none,
    finalizers := [METRICS_FINALIZER_NAME, RESOURCES_FINALIZER_NAME],
    spec := sampleRRsetSpec, status := rrsetStatusZero }

/-- First of two ClusterRRsets sharing `test.example.org./A` (fixture for C1). -/
def c1ClusterRRset : RRsetObj :=
  { name := ("crr1").data, ns := [], generation := 1,
    deletionTimestamp := none, finalizers := [METRICS_FINALIZER_NAME],
    spec := sampleRRsetSpec, status := rrsetStatusZero }

/-- Second of two ClusterRRsets sharing `test.example.org./A`. -/
def c2ClusterRRset : RRsetObj :=
  { c1ClusterRRset with name := ("crr2").data }

/-- Store holding the healthy parent ClusterZone and the two duplicate
ClusterRRsets, and nothing else. -/
def c1Store : Store :=
  { zones := [], clusterZones := [sampleClusterZone], rrsets := [],
    clusterRRsets := [c1ClusterRRset, c2ClusterRRset] }

/-- A deleted zone carrying both finalizers (fixture for C5/C7). -/
def deletedZone : ZoneObj :=
  { name := ("example.org").data, ns := ("default").data, generation := 1,
    deletionTimestamp := some 3,
    finalizers := [RESOURCES_FINALIZER_NAME, METRICS_FINALIZER_NAME],
    spec := sampleZoneSpec,
    status := { zoneStatusZero with syncStatus := some SUCCEEDED_STATUS } }

/-- A non-deleted zone carrying only the metrics finalizer (fixture for C6). -/
def freshZone : ZoneObj :=
  { name := ("example.org").data, ns := ("default").data, generation := 1,
    deletionTimestamp := none, finalizers := [METRICS_FINALIZER_NAME],
    spec := sampleZoneSpec, status := zoneStatusZero }

/-- A zone environment where every backend call succeeds and finds nothing. -/
def zoneEnvBase : ZoneEnv :=
  { existingZones := [], existingClusterZones := [],
    zonesGet1Res := pdnsZoneZero, zonesGet1Err := none,
    zonesGet2Res := pdnsZoneZero, zonesGet2Err := none,
    recordsGetNSRecords := [], recordsGetNSErr := none,
    zonesAddErr := none, zonesChangeErr := none, recordsChangeErr := none,
    zonesDeleteErr := none, now := 7 }

/-- A zone environment whose first backend Get fails with a transport error. -/
def zoneEnvGetFails : ZoneEnv :=
  { zoneEnvBase with zonesGet1Err := some (("connection refused").data) }

/-- A Succeeded namespaced RRset (metrics fixture). -/
def m1RRset : RRsetObj :=
  { name := ("r1").data, ns := ("default").data, generation := 1,
    deletionTimestamp := none, finalizers := [METRICS_FINALIZER_NAME],
    spec := sampleRRsetSpec,
    status := { rrsetStatusZero with syncStatus := some SUCCEEDED_STATUS } }

/-- The same resource after a transition to Failed. -/
def m1RRsetFailed : RRsetObj :=
  { m1RRset with status := { rrsetStatusZero with syncStatus := some FAILED_STATUS } }

/-- A Succeeded ClusterRRset (metrics fixture). -/
def mClusterRRset : RRsetObj :=
  { name := ("c1").data, ns := [], generation := 1,
    deletionTimestamp := none, finalizers := [METRICS_FINALIZER_NAME],
    spec := sampleRRsetSpec,
    status := { rrsetStatusZero with syncStatus := some SUCCEEDED_STATUS } }

def mFqdn : GoString := ("test.example.org.").data

/-- The series labels `updateRrsetsMetrics` writes for `m1RRset`. -/
def succeededSeriesLabels : Labels :=
  [(lFqdn, mFqdn), (lType, sampleRRsetSpec.type), (lStatus, SUCCEEDED_STATUS),
    (lName, ("r1").data), (lNamespace, ("default").data)]

/-- The series labels `updateRrsetsMetrics` writes for `m1RRsetFailed`. -/
def failedSeriesLabels : Labels :=
  [(lFqdn, mFqdn), (lType, sampleRRsetSpec.type), (lStatus, FAILED_STATUS),
    (lName, ("r1").data), (lNamespace, ("default").data)]

/-- A ClusterRRset whose zoneRef kind is `Zone` (fixture for C10). -/
def c10ClusterRRset : RRsetObj :=
  { name := ("crr10").data, ns := [], generation := 1,
    deletionTimestamp := none, finalizers := [METRICS_FINALIZER_NAME],
    spec := { sampleRRsetSpec with
      zoneRef := { name := ("example.org").data, kind := .zone } },
    status := rrsetStatusZero }

/-- A namespaced Zone named like the reference but living in `default`. -/
def namespacedZone : ZoneObj :=
  { name := ("example.org").data, ns := ("default").data, generation := 1,
    deletionTimestamp := none,
    finalizers := [METRICS_FINALIZER_NAME, RESOURCES_FINALIZER_NAME],
    spec := sampleZoneSpec,
    status := { zoneStatusZero with syncStatus := some SUCCEEDED_STATUS } }

/-- Store for C10: only a namespaced Zone with the referenced name exists. -/
def c10Store : Store :=
  { zones := [namespacedZone], clusterZones := [], rrsets := [],
    clusterRRsets := [c10ClusterRRset] }

/-- The status that the final patch of the C3 run writes. -/
def c3ExpectedStatus : RRsetStatus :=
  { lastUpdateTime := some 5, dnsEntryName := some (("test.example.org.").data),
    syncStatus := some SUCCEEDED_STATUS, conditions := [],
    observedGeneration := some 2 }

/-- The `Available` condition the C3 run computes (and then discards). -/
def c3ComputedCondition : Condition :=
  { type := AvailableConditionType, status := ConditionTrue, lastTransitionTime := 5,
    reason := RrsetReasonSynced, message := RrsetMessageSyncSucceeded }

section GoStringLemmas

theorem goHasSuffix_iff (s suffix : GoString) :
    goHasSuffix s suffix = true ↔ suffix <:+ s := by
  simp [goHasSuffix, List.isSuffixOf_iff_suffix]

theorem goHasSuffix_append (l : GoString) (suffix : GoString) :
    goHasSuffix (l ++ suffix) suffix = true := by
  rw [goHasSuffix_iff]
  exact List.suffix_append l suffix

theorem goTrimSuffix_append (l suffix : GoString) :
    goTrimSuffix (l ++ suffix) suffix = l := by
  unfold goTrimSuffix
  rw [if_pos (goHasSuffix_append l suffix)]
  have hlen : (l ++ suffix).length - suffix.length = l.length := by
    simp [List.length_append]
  rw [hlen, List.take_left]

/-- Splitting a string that ends in a given suffix. -/
theorem exists_of_goHasSuffix {s suffix : GoString}
    (h : goHasSuffix s suffix = true) : ∃ t, s = t ++ suffix := by
  rw [goHasSuffix_iff] at h
  obtain ⟨t, ht⟩ := h
  exact ⟨t, ht.symm⟩

/-- When a string lacks the suffix, `goTrimSuffix` is the identity. -/
theorem goTrimSuffix_of_not (s suffix : GoString)
    (h : goHasSuffix s suffix = false) : goTrimSuffix s suffix = s := by
  unfold goTrimSuffix
  rw [h]
  simp

/-- A one-character extension cancels on the right of a suffix test. -/
theorem goHasSuffix_concat_concat (l₁ l₂ : GoString) (c : Char) :
    goHasSuffix (l₂ ++ [c]) (l₁ ++ [c]) = goHasSuffix l₂ l₁ := by
  rcases h : goHasSuffix l₂ l₁ with _ | _
  · rcases h' : goHasSuffix (l₂ ++ [c]) (l₁ ++ [c]) with _ | _
    · rfl
    · exfalso
      obtain ⟨t, ht⟩ := exists_of_goHasSuffix h'
      have hsplit : l₂ = t ++ l₁ := by
        rw [← List.append_assoc] at ht
        exact List.append_cancel_right ht
      have hx := goHasSuffix_append t l₁
      rw [← hsplit] at hx
      rw [h] at hx
      exact Bool.false_ne_true hx
  · obtain ⟨t, ht⟩ := exists_of_goHasSuffix h
    subst ht
    rw [List.append_assoc]
    exact (goHasSuffix_append t (l₁ ++ [c])).trans rfl

theorem makeCanonical_nonempty (s : GoString) (h : s ≠ []) :
    makeCanonical s = goTrimSuffix s ['.'] ++ ['.'] := by
  simp [makeCanonical, h]

theorem makeCanonical_ne_nil (s : GoString) (h : s ≠ []) :
    makeCanonical s ≠ [] := by
  rw [makeCanonical_nonempty s h]
  simp

/-- `makeCanonical` output always ends with a dot (nonempty input). -/
theorem makeCanonical_endsWithDot (s : GoString) (h : s ≠ []) :
    goHasSuffix (makeCanonical s) ['.'] = true := by
  rw [makeCanonical_nonempty s h]
  exact goHasSuffix_append _ _

/-- `makeCanonical` is idempotent. -/
theorem makeCanonical_idem (s : GoString) :
    makeCanonical (makeCanonical s) = makeCanonical s := by
  by_cases h : s = []
  · subst h; rfl
  · rw [makeCanonical_nonempty s h]
    rw [makeCanonical_nonempty _ (by simp)]
    rw [goTrimSuffix_append]

/-- On input already ending in a dot, `makeCanonical` is the identity. -/
theorem makeCanonical_of_endsWithDot (s : GoString)
    (h : goHasSuffix s ['.'] = true) : makeCanonical s = s := by
  obtain ⟨t, ht⟩ := exists_of_goHasSuffix h
  subst ht
  rw [makeCanonical_nonempty _ (by simp), goTrimSuffix_append]

/-- When the input does not end in two dots, the output of `makeCanonical`
ends in exactly one: it does not end in `".."`. -/
theorem makeCanonical_not_doubleDot (s : GoString) (hne : s ≠ [])
    (h : goHasSuffix s ['.', '.'] = false) :
    goHasSuffix (makeCanonical s) ['.', '.'] = false := by
  rw [makeCanonical_nonempty s hne]
  have key : goHasSuffix (goTrimSuffix s ['.'] ++ ['.']) (['.'] ++ ['.'])
      = goHasSuffix (goTrimSuffix s ['.']) ['.'] :=
    goHasSuffix_concat_concat ['.'] (goTrimSuffix s ['.']) '.'
  have hdd : (['.', '.'] : GoString) = ['.'] ++ ['.'] := rfl
  rw [hdd, key]
  rcases hdot : goHasSuffix s ['.'] with _ | _
  · rw [goTrimSuffix_of_not s ['.'] hdot]
    exact hdot
  · obtain ⟨t, ht⟩ := exists_of_goHasSuffix hdot
    subst ht
    rw [goTrimSuffix_append]
    rcases htd : goHasSuffix t ['.'] with _ | _
    · rfl
    · exfalso
      obtain ⟨u, hu⟩ := exists_of_goHasSuffix htd
      subst hu
      have hx : goHasSuffix (u ++ ['.'] ++ ['.']) ['.', '.'] = true := by
        rw [List.append_assoc]
        exact goHasSuffix_append u (['.'] ++ ['.'])
      rw [hx] at h
      exact absurd h (by decide)

end GoStringLemmas

section SharedLemmas

theorem containsFinalizer_iff (fs : List GoString) (f : GoString) :
    containsFinalizer fs f = true ↔ f ∈ fs := by
  simp [containsFinalizer, List.contains_iff_exists_mem_beq]

theorem containsFinalizer_removeFinalizer_self (fs : List GoString) (f : GoString) :
    containsFinalizer (removeFinalizer fs f) f = false := by
  rw [← Bool.not_eq_true, containsFinalizer_iff]
  simp [removeFinalizer, List.mem_filter]

theorem containsFinalizer_removeFinalizer_ne (fs : List GoString) (f g : GoString)
    (h : f ≠ g) : containsFinalizer (removeFinalizer fs g) f = containsFinalizer fs f := by
  rw [Bool.eq_iff_iff, containsFinalizer_iff, containsFinalizer_iff]
  simp [removeFinalizer, List.mem_filter, h]

theorem setStatusCondition_exists (conds : List Condition) (c : Condition) :
    ∃ x ∈ setStatusCondition conds c,
      x.type = c.type ∧ x.status = c.status ∧ x.reason = c.reason ∧ x.message = c.message := by
  unfold setStatusCondition
  cases hf : conds.find? (fun x => x.type == c.type) with
  | none => exact ⟨c, by simp, rfl, rfl, rfl, rfl⟩
  | some e =>
      have he : e ∈ conds := List.mem_of_find?_eq_some hf
      have hp : (e.type == c.type) = true := by
        have h0 := List.find?_some hf
        simpa using h0
      refine ⟨if e.status == c.status then { c with lastTransitionTime := e.lastTransitionTime } else c, ?_, ?_⟩
      · have hm := List.mem_map_of_mem (fun x =>
          if x.type == c.type then
            (if x.status == c.status then { c with lastTransitionTime := x.lastTransitionTime } else c)
          else x) he
        simp only [hp, if_true] at hm
        exact hm
      · cases h : e.status == c.status <;> simp [h]

end SharedLemmas

/-- C8: for every non-empty input that does not already end in two dots,
`makeCanonical` returns a string ending in exactly one trailing dot (at least
one dot, and not two); and `getRRsetName` always returns a name ending in a
trailing dot. (The unconditional "exactly one trailing dot" fails: see the
counterexample.) -/
theorem claim_C8 :
    (∀ s : GoString, s ≠ [] → goHasSuffix (makeCanonical s) ['.'] = true) ∧
    (∀ s : GoString, s ≠ [] → goHasSuffix s ['.', '.'] = false →
      goHasSuffix (makeCanonical s) ['.', '.'] = false) ∧
    (∀ rrset : RRsetSpec, goHasSuffix (getRRsetName rrset) ['.'] = true) := by
  refine ⟨makeCanonical_endsWithDot, makeCanonical_not_doubleDot, ?_⟩
  intro r
  unfold getRRsetName
  by_cases h : goHasSuffix r.name ['.'] = true
  · rw [if_neg (by simp [h])]
    obtain ⟨t, ht⟩ := exists_of_goHasSuffix h
    apply makeCanonical_endsWithDot
    rw [ht]
    simp
  · rw [if_pos (by simp [h])]
    apply makeCanonical_endsWithDot
    simp

/-- C8 counterexample: on input `"a.."` (non-empty), `makeCanonical` returns
`"a.."`, which ends in two trailing dots — not exactly one. -/
theorem claim_C8_counterexample :
    (("a..").data ≠ ([] : GoString)) ∧
    makeCanonical (("a..").data) = ("a..").data ∧
    goHasSuffix (makeCanonical (("a..").data)) ['.', '.'] = true := by
  refine ⟨by decide, by decide, by decide⟩

/-- C8 witness: the amended claim evaluated at `"a"`. -/
theorem claim_C8_witness :
    goHasSuffix (makeCanonical (("a").data)) ['.'] = true ∧
    goHasSuffix (makeCanonical (("a").data)) ['.', '.'] = false :=
  ⟨claim_C8.1 (("a").data) (by decide), claim_C8.2.1 (("a").data) (by decide) (by decide)⟩

/-- C9: `makeCanonical` is idempotent, maps the empty string to itself, and
`getRRsetName` returns `spec.name` unchanged whenever it already ends in a
dot. -/
theorem claim_C9 :
    (∀ s : GoString, makeCanonical (makeCanonical s) = makeCanonical s) ∧
    makeCanonical [] = [] ∧
    (∀ rrset : RRsetSpec, goHasSuffix rrset.name ['.'] = true →
      getRRsetName rrset = rrset.name) := by
  refine ⟨makeCanonical_idem, rfl, ?_⟩
  intro r h
  unfold getRRsetName
  rw [if_neg (by simp [h])]
  exact makeCanonical_of_endsWithDot r.name h

/-- C9 witness: an RRset whose name `"test."` already ends in a dot keeps it. -/
theorem claim_C9_witness :
    getRRsetName { sampleRRsetSpec with name := ("test.").data } = ("test.").data :=
  claim_C9.2.2 { sampleRRsetSpec with name := ("test.").data } (by decide)

/-- The code's identity test agrees with the spec's five-component equality
(canonical name, type, TTL, comment presence-and-content, ordered records). -/
theorem rrsetIsIdenticalToExternalRRset_iff (r : RRsetSpec) (fr : PdnsRRset) :
    rrsetIsIdenticalToExternalRRset r fr = true ↔
      (some (getRRsetName r) = fr.name ∧ r.type = fr.type ∧ some r.ttl = fr.ttl ∧
        commentsPresenceContentEqual r.comment fr.comments = true ∧
        r.records = fr.records) := by
  unfold rrsetIsIdenticalToExternalRRset commentsPresenceContentEqual
  rcases fr with ⟨n, t, ttl, recs, comms⟩
  simp only []
  cases comms <;> cases hc : r.comment <;>
    simp [Bool.and_eq_true, beq_iff_eq, and_assoc]

/-- C2: on the success path (backend Get succeeded, Change would succeed),
`createOrUpdateRrsetExternalResources` issues `Records.Change` exactly when it
reports a change, and it reports a change exactly when the Get reply, filtered
to the first entry whose name equals the canonical DnsEntryName, is absent or
differs from the declared RRset on canonical name, type, TTL, comment
presence-and-content, or the ordered record contents. -/
theorem claim_C2 (zone : ZoneObj) (rrset : RRsetSpec) (recordsGet : RecordsGetReply)
    (hget : recordsGet.err = none) :
    ((createOrUpdateRrsetExternalResources zone rrset recordsGet none).changeCalled
        = (createOrUpdateRrsetExternalResources zone rrset recordsGet none).changed) ∧
    ((createOrUpdateRrsetExternalResources zone rrset recordsGet none).changed = true ↔
      (recordsGet.records.find?
          (fun fr => fr.name == some (makeCanonical (getRRsetName rrset))) = none ∨
        ∃ fr, recordsGet.records.find?
            (fun fr => fr.name == some (makeCanonical (getRRsetName rrset))) = some fr ∧
          ¬ (some (getRRsetName rrset) = fr.name ∧ rrset.type = fr.type ∧
              some rrset.ttl = fr.ttl ∧
              commentsPresenceContentEqual rrset.comment fr.comments = true ∧
              rrset.records = fr.records))) := by
  rcases recordsGet with ⟨recs, err⟩
  simp only at hget
  subst hget
  unfold createOrUpdateRrsetExternalResources
  simp only []
  cases hf : recs.find? (fun fr => fr.name == some (makeCanonical (getRRsetName rrset))) with
  | none => simp [hf]
  | some fr =>
      cases hid : rrsetIsIdenticalToExternalRRset rrset fr with
      | true =>
          have hconj := (rrsetIsIdenticalToExternalRRset_iff rrset fr).mp hid
          simp only [hf, hid]
          refine ⟨rfl, ?_⟩
          simp only [if_true]
          constructor
          · intro hfalse
            exact absurd hfalse (by simp)
          · rintro (h | ⟨fr', hfr', hneg⟩)
            · exact absurd h (by simp)
            · have heq : fr' = fr := by
                injection hfr' with h0
                exact h0.symm
              subst heq
              exact absurd hconj hneg
      | false =>
          have hneg : ¬ (some (getRRsetName rrset) = fr.name ∧ rrset.type = fr.type ∧
              some rrset.ttl = fr.ttl ∧
              commentsPresenceContentEqual rrset.comment fr.comments = true ∧
              rrset.records = fr.records) := by
            intro hc
            have := (rrsetIsIdenticalToExternalRRset_iff rrset fr).mpr hc
            rw [hid] at this
            exact absurd this (by decide)
          simp only [hf, hid]
          refine ⟨rfl, ?_⟩
          constructor
          · intro _
            exact Or.inr ⟨fr, rfl, hneg⟩
          · intro _
            rfl

/-- C2 witness: with a backend reply identical to the declared RRset, no
change is issued and none is reported. -/
theorem claim_C2_witness :
    ((createOrUpdateRrsetExternalResources sampleClusterZone sampleRRsetSpec
        sampleIdenticalReply none).changeCalled
      = (createOrUpdateRrsetExternalResources sampleClusterZone sampleRRsetSpec
        sampleIdenticalReply none).changed) ∧
    (createOrUpdateRrsetExternalResources sampleClusterZone sampleRRsetSpec
        sampleIdenticalReply none).changed = false :=
  ⟨(claim_C2 sampleClusterZone sampleRRsetSpec sampleIdenticalReply rfl).1, by decide⟩

section GaugeLemmas

theorem gaugeSet_preserves (g : GaugeVec) (ls : Labels) (v : Nat) (e : Labels × Nat)
    (he : e ∈ g) (hne : e.1 ≠ ls) : e ∈ gaugeSet g ls v := by
  unfold gaugeSet
  by_cases ha : g.any (fun x => x.1 == ls) = true
  · rw [if_pos ha]
    have hb : (e.1 == ls) = false := by simp [hne]
    have hm := List.mem_map_of_mem (fun x => if x.1 == ls then (x.1, v) else x) he
    simpa [hb] using hm
  · rw [if_neg ha]
    exact List.mem_append_left _ he

theorem gaugeDeletePartialMatch_removes (g : GaugeVec) (m : Labels) (e : Labels × Nat)
    (he : e ∈ gaugeDeletePartialMatch g m) : labelsMatch m e.1 = false := by
  unfold gaugeDeletePartialMatch at he
  have h2 := (List.mem_filter.mp he).2
  simpa using h2

end GaugeLemmas

/-- C4 (amended): `updateRrsetsMetrics` writes the series of the current
status but preserves every series with different labels — in particular the
series carrying the previous status label survives a status transition until
teardown; teardown (`removeRrsetMetrics`) removes every series of a
namespaced RRset and (`removeZonesMetrics`) of both zone variants, but is a
no-op for a ClusterRRset. -/
theorem claim_C4 :
    (∀ (gr : RRsetObj) (st : MetricsState), removeRrsetMetrics .clusterRRset gr st = st) ∧
    (∀ (fqdn : GoString) (gr : RRsetObj) (st : MetricsState) (e : Labels × Nat),
      e ∈ st.rrsetsStatusesMetric →
      e.1 ≠ [(lFqdn, fqdn), (lType, gr.spec.type), (lStatus, gr.status.syncStatus.getD []),
        (lName, gr.name), (lNamespace, gr.ns)] →
      e ∈ (updateRrsetsMetrics fqdn .rrset gr st).rrsetsStatusesMetric) ∧
    (∀ (gr : RRsetObj) (st : MetricsState) (e : Labels × Nat),
      e ∈ (removeRrsetMetrics .rrset gr st).rrsetsStatusesMetric →
      labelsMatch [(lNamespace, gr.ns), (lName, gr.name)] e.1 = false) ∧
    (∀ (gz : ZoneObj) (st : MetricsState) (e : Labels × Nat),
      e ∈ (removeZonesMetrics .zone gz st).zonesStatusesMetric →
      labelsMatch [(lNamespace, gz.ns), (lName, gz.name)] e.1 = false) ∧
    (∀ (gz : ZoneObj) (st : MetricsState) (e : Labels × Nat),
      e ∈ (removeZonesMetrics .clusterZone gz st).clusterZonesStatusesMetric →
      labelsMatch [(lName, gz.name)] e.1 = false) := by
  refine ⟨fun gr st => rfl, ?_, ?_, ?_, ?_⟩
  · intro fqdn gr st e he hne
    exact gaugeSet_preserves _ _ _ _ he hne
  · intro gr st e he
    exact gaugeDeletePartialMatch_removes _ _ _ he
  · intro gz st e he
    exact gaugeDeletePartialMatch_removes _ _ _ he
  · intro gz st e he
    exact gaugeDeletePartialMatch_removes _ _ _ he

/-- C4 counterexample: after `m1RRset` transitions from Succeeded to Failed,
the registry holds both series (the Succeeded series was not replaced); and
removing a ClusterRRset's metrics leaves its (non-empty) gauge untouched. -/
theorem claim_C4_counterexample :
    ((succeededSeriesLabels, 1) ∈
        (updateRrsetsMetrics mFqdn .rrset m1RRsetFailed
          (updateRrsetsMetrics mFqdn .rrset m1RRset emptyMetricsState)).rrsetsStatusesMetric ∧
      (failedSeriesLabels, 1) ∈
        (updateRrsetsMetrics mFqdn .rrset m1RRsetFailed
          (updateRrsetsMetrics mFqdn .rrset m1RRset emptyMetricsState)).rrsetsStatusesMetric) ∧
    (removeRrsetMetrics .clusterRRset mClusterRRset
        (updateRrsetsMetrics mFqdn .clusterRRset mClusterRRset emptyMetricsState)
      = updateRrsetsMetrics mFqdn .clusterRRset mClusterRRset emptyMetricsState) ∧
    (updateRrsetsMetrics mFqdn .clusterRRset mClusterRRset
        emptyMetricsState).clusterRrsetsStatusesMetric ≠ [] := by
  refine ⟨⟨by decide, by decide⟩, rfl, by decide⟩

/-- C4 witness: the preservation part of the amended claim, applied to the
concrete Succeeded series across the Failed transition. -/
theorem claim_C4_witness :
    (succeededSeriesLabels, 1) ∈
      (updateRrsetsMetrics mFqdn .rrset m1RRsetFailed
        (updateRrsetsMetrics mFqdn .rrset m1RRset emptyMetricsState)).rrsetsStatusesMetric :=
  claim_C4.2.1 mFqdn m1RRsetFailed
    (updateRrsetsMetrics mFqdn .rrset m1RRset emptyMetricsState)
    (succeededSeriesLabels, 1) (by decide) (by decide)

/-- C5 (amended): when a deleted zone or RRset carries both finalizers and the
backend cleanup succeeds, the run persists exactly one object update, and in
that single persisted revision both the resources finalizer and the metrics
finalizer are already gone — the resources finalizer is removed first only
in memory, not in a strictly earlier persisted revision. -/
theorem claim_C5 :
    (∀ (gz : ZoneObj) (isModified : Bool) (env : ZoneEnv),
      containsFinalizer gz.finalizers RESOURCES_FINALIZER_NAME = true →
      containsFinalizer gz.finalizers METRICS_FINALIZER_NAME = true →
      env.zonesDeleteErr = none →
      updatesOf (zoneReconcile gz isModified true env).trace
          = [(zoneReconcile gz isModified true env).finalizers] ∧
        containsFinalizer (zoneReconcile gz isModified true env).finalizers
          RESOURCES_FINALIZER_NAME = false ∧
        containsFinalizer (zoneReconcile gz isModified true env).finalizers
          METRICS_FINALIZER_NAME = false ∧
        (zoneReconcile gz isModified true env).err = none) ∧
    (∀ (gr : RRsetObj) (zone : ZoneObj) (isModified : Bool) (lastUpdateTime : Nat)
        (l1 l2 : List RRsetObj) (env : RRsetEnv),
      containsFinalizer gr.finalizers RESOURCES_FINALIZER_NAME = true →
      containsFinalizer gr.finalizers METRICS_FINALIZER_NAME = true →
      env.recordsDeleteErr = none →
      updatesOf (rrsetReconcile gr zone isModified true lastUpdateTime l1 l2 env).trace
          = [(rrsetReconcile gr zone isModified true lastUpdateTime l1 l2 env).finalizers] ∧
        containsFinalizer (rrsetReconcile gr zone isModified true lastUpdateTime l1 l2 env).finalizers
          RESOURCES_FINALIZER_NAME = false ∧
        containsFinalizer (rrsetReconcile gr zone isModified true lastUpdateTime l1 l2 env).finalizers
          METRICS_FINALIZER_NAME = false ∧
        (rrsetReconcile gr zone isModified true lastUpdateTime l1 l2 env).err = none) := by
  have hne : METRICS_FINALIZER_NAME ≠ RESOURCES_FINALIZER_NAME := by decide
  have hne' : RESOURCES_FINALIZER_NAME ≠ METRICS_FINALIZER_NAME := by decide
  constructor
  · intro gz m env hres hmet hdel
    have hfs1 : containsFinalizer (removeFinalizer gz.finalizers RESOURCES_FINALIZER_NAME)
        METRICS_FINALIZER_NAME = true := by
      rw [containsFinalizer_removeFinalizer_ne _ _ _ hne]
      exact hmet
    have hout : zoneReconcile gz m true env =
        { trace := [.backend .zonesDelete,
            .update (removeFinalizer (removeFinalizer gz.finalizers RESOURCES_FINALIZER_NAME)
              METRICS_FINALIZER_NAME)],
          err := none, branch := .deleted,
          finalizers := removeFinalizer (removeFinalizer gz.finalizers RESOURCES_FINALIZER_NAME)
            METRICS_FINALIZER_NAME,
          patchedStatus := none } := by
      unfold zoneReconcile deleteZoneExternalResources
      rw [hdel]
      simp [hres, hfs1]
    rw [hout]
    refine ⟨by simp [updatesOf], ?_, ?_, rfl⟩
    · rw [containsFinalizer_removeFinalizer_ne _ _ _ hne']
      exact containsFinalizer_removeFinalizer_self _ _
    · exact containsFinalizer_removeFinalizer_self _ _
  · intro gr zone m lut l1 l2 env hres hmet hdel
    have hfs1 : containsFinalizer (removeFinalizer gr.finalizers RESOURCES_FINALIZER_NAME)
        METRICS_FINALIZER_NAME = true := by
      rw [containsFinalizer_removeFinalizer_ne _ _ _ hne]
      exact hmet
    have hout : rrsetReconcile gr zone m true lut l1 l2 env =
        { trace := [.backend .recordsDelete,
            .update (removeFinalizer (removeFinalizer gr.finalizers RESOURCES_FINALIZER_NAME)
              METRICS_FINALIZER_NAME)],
          err := none, branch := .deleted,
          finalizers := removeFinalizer (removeFinalizer gr.finalizers RESOURCES_FINALIZER_NAME)
            METRICS_FINALIZER_NAME,
          patchedStatus := none } := by
      unfold rrsetReconcile deleteRrsetExternalResources
      rw [hdel]
      simp [hres, hfs1]
    rw [hout]
    refine ⟨by simp [updatesOf], ?_, ?_, rfl⟩
    · rw [containsFinalizer_removeFinalizer_ne _ _ _ hne']
      exact containsFinalizer_removeFinalizer_self _ _
    · exact containsFinalizer_removeFinalizer_self _ _

/-- C5 counterexample: on the concrete deleted zone carrying both finalizers
(with a clean backend delete), the run persists exactly one revision, in
which both finalizers are already gone — there is no persisted revision with
the resources finalizer removed but the metrics finalizer still present, so
the removal is not strictly ordered across revisions. -/
theorem claim_C5_counterexample :
    updatesOf (zoneReconcile deletedZone false true zoneEnvBase).trace = [[]] ∧
    ¬ strictFinalizerRemovalOrder
        (updatesOf (zoneReconcile deletedZone false true zoneEnvBase).trace) := by
  refine ⟨by decide, by decide⟩

/-- C5 witness: the amended claim at the concrete deleted zone. -/
theorem claim_C5_witness :
    updatesOf (zoneReconcile deletedZone false true zoneEnvBase).trace
        = [(zoneReconcile deletedZone false true zoneEnvBase).finalizers] ∧
      containsFinalizer (zoneReconcile deletedZone false true zoneEnvBase).finalizers
        RESOURCES_FINALIZER_NAME = false :=
  have h := claim_C5.1 deletedZone false zoneEnvBase (by decide) (by decide) rfl
  ⟨h.1, h.2.1⟩

/-- C6 (amended): the resources finalizer is installed unconditionally at the
start of every reconcile of a non-deleted zone or RRset that lacks it — the
very first persisted event already carries it, before any backend contact and
regardless of backend success. -/
theorem claim_C6 :
    (∀ (gz : ZoneObj) (isModified : Bool) (env : ZoneEnv),
      containsFinalizer gz.finalizers RESOURCES_FINALIZER_NAME = false →
      ∃ rest, (zoneReconcile gz isModified false env).trace
          = Ev.update (addFinalizer gz.finalizers RESOURCES_FINALIZER_NAME) :: rest) ∧
    (∀ (gr : RRsetObj) (zone : ZoneObj) (isModified : Bool) (lastUpdateTime : Nat)
        (l1 l2 : List RRsetObj) (env : RRsetEnv),
      containsFinalizer gr.finalizers RESOURCES_FINALIZER_NAME = false →
      ∃ rest, (rrsetReconcile gr zone isModified false lastUpdateTime l1 l2 env).trace
          = Ev.update (addFinalizer gr.finalizers RESOURCES_FINALIZER_NAME) :: rest) ∧
    (∀ fs : List GoString,
      containsFinalizer (addFinalizer fs RESOURCES_FINALIZER_NAME)
        RESOURCES_FINALIZER_NAME = true) := by
  refine ⟨?_, ?_, ?_⟩
  · intro gz m env h
    unfold zoneReconcile
    simp only [h, Bool.not_false, Bool.not_true, if_true, if_false]
    simp only [Bool.false_eq_true, not_false_iff, if_true]
    split
    · exact ⟨_, rfl⟩
    · split
      · exact ⟨_, rfl⟩
      · split
        · exact ⟨_, rfl⟩
        · split
          · exact ⟨_, rfl⟩
          · split
            · exact ⟨_, rfl⟩
            · exact ⟨_, rfl⟩
  · intro gr zone m lut l1 l2 env h
    unfold rrsetReconcile
    simp only [h, Bool.not_false, Bool.not_true, if_true, if_false]
    simp only [Bool.false_eq_true, not_false_iff, if_true]
    split
    · exact ⟨_, rfl⟩
    · split
      · exact ⟨_, rfl⟩
      · exact ⟨_, rfl⟩
  · intro fs
    unfold addFinalizer
    by_cases h : containsFinalizer fs RESOURCES_FINALIZER_NAME = true
    · rw [if_pos h]
      exact h
    · rw [if_neg h]
      rw [containsFinalizer_iff]
      simp

/-- C6 counterexample: a fresh zone (metrics finalizer only) whose very first
backend call fails with a transport error still ends the reconcile carrying
the resources finalizer, persisted before the backend call — although no
backend operation for it ever succeeded. -/
theorem claim_C6_counterexample :
    (zoneReconcile freshZone false false zoneEnvGetFails).err
        = some (("connection refused").data) ∧
    containsFinalizer (zoneReconcile freshZone false false zoneEnvGetFails).finalizers
        RESOURCES_FINALIZER_NAME = true ∧
    (zoneReconcile freshZone false false zoneEnvGetFails).trace
        = [Ev.update [METRICS_FINALIZER_NAME, RESOURCES_FINALIZER_NAME],
            Ev.backend .zonesGet] := by
  refine ⟨by decide, by decide, by decide⟩

/-- C6 witness: the amended claim at the concrete fresh zone. -/
theorem claim_C6_witness :
    ∃ rest, (zoneReconcile freshZone false false zoneEnvGetFails).trace
        = Ev.update (addFinalizer freshZone.finalizers RESOURCES_FINALIZER_NAME) :: rest :=
  claim_C6.1 freshZone false zoneEnvGetFails (by decide)

/-- C7: zone deletion tolerates not-found and is atomic on other errors:
`deleteZoneExternalResources` maps the not-found reply (and success) to nil;
on a deleted zone's reconcile, a tolerated delete proceeds to remove the
finalizers, while any other backend error is returned with no persisted
update and the finalizers unchanged. -/
theorem claim_C7 :
    (∀ gz : ZoneObj, deleteZoneExternalResources gz (some ZONE_NOT_FOUND_MSG) = none ∧
      deleteZoneExternalResources gz none = none) ∧
    (∀ (gz : ZoneObj) (isModified : Bool) (env : ZoneEnv),
      (env.zonesDeleteErr = none ∨ env.zonesDeleteErr = some ZONE_NOT_FOUND_MSG) →
      (zoneReconcile gz isModified true env).err = none ∧
        containsFinalizer (zoneReconcile gz isModified true env).finalizers
          RESOURCES_FINALIZER_NAME = false ∧
        containsFinalizer (zoneReconcile gz isModified true env).finalizers
          METRICS_FINALIZER_NAME = false) ∧
    (∀ (gz : ZoneObj) (isModified : Bool) (env : ZoneEnv) (e : GoString),
      containsFinalizer gz.finalizers RESOURCES_FINALIZER_NAME = true →
      env.zonesDeleteErr = some e → e ≠ ZONE_NOT_FOUND_MSG →
      (zoneReconcile gz isModified true env).err = some e ∧
        (zoneReconcile gz isModified true env).finalizers = gz.finalizers ∧
        updatesOf (zoneReconcile gz isModified true env).trace = []) := by
  have hne : METRICS_FINALIZER_NAME ≠ RESOURCES_FINALIZER_NAME := by decide
  have hne' : RESOURCES_FINALIZER_NAME ≠ METRICS_FINALIZER_NAME := by decide
  refine ⟨?_, ?_, ?_⟩
  · intro gz
    exact ⟨by simp [deleteZoneExternalResources], rfl⟩
  · intro gz m env hdel
    have hdel0 : deleteZoneExternalResources gz env.zonesDeleteErr = none := by
      rcases hdel with h | h <;> simp [deleteZoneExternalResources, h]
    by_cases hres : containsFinalizer gz.finalizers RESOURCES_FINALIZER_NAME = true
    · by_cases hmet : containsFinalizer (removeFinalizer gz.finalizers RESOURCES_FINALIZER_NAME)
          METRICS_FINALIZER_NAME = true
      · have hout : zoneReconcile gz m true env =
            { trace := [.backend .zonesDelete,
                .update (removeFinalizer (removeFinalizer gz.finalizers RESOURCES_FINALIZER_NAME)
                  METRICS_FINALIZER_NAME)],
              err := none, branch := .deleted,
              finalizers := removeFinalizer (removeFinalizer gz.finalizers RESOURCES_FINALIZER_NAME)
                METRICS_FINALIZER_NAME,
              patchedStatus := none } := by
          unfold zoneReconcile
          rw [hdel0]
          simp [hres, hmet]
        rw [hout]
        refine ⟨rfl, ?_, ?_⟩
        · rw [containsFinalizer_removeFinalizer_ne _ _ _ hne']
          exact containsFinalizer_removeFinalizer_self _ _
        · exact containsFinalizer_removeFinalizer_self _ _
      · have hmet0 : containsFinalizer (removeFinalizer gz.finalizers RESOURCES_FINALIZER_NAME)
            METRICS_FINALIZER_NAME = false := Bool.eq_false_iff.mpr hmet
        have hout : zoneReconcile gz m true env =
            { trace := [.backend .zonesDelete,
                .update (removeFinalizer gz.finalizers RESOURCES_FINALIZER_NAME)],
              err := none, branch := .deleted,
              finalizers := removeFinalizer gz.finalizers RESOURCES_FINALIZER_NAME,
              patchedStatus := none } := by
          unfold zoneReconcile
          rw [hdel0]
          simp [hres, hmet0]
        rw [hout]
        exact ⟨rfl, containsFinalizer_removeFinalizer_self _ _, hmet0⟩
    · have hres0 : containsFinalizer gz.finalizers RESOURCES_FINALIZER_NAME = false :=
        Bool.eq_false_iff.mpr hres
      by_cases hmet : containsFinalizer gz.finalizers METRICS_FINALIZER_NAME = true
      · have hout : zoneReconcile gz m true env =
            { trace := [.update (removeFinalizer gz.finalizers METRICS_FINALIZER_NAME)],
              err := none, branch := .deleted,
              finalizers := removeFinalizer gz.finalizers METRICS_FINALIZER_NAME,
              patchedStatus := none } := by
          unfold zoneReconcile
          simp [hres0, hmet]
        rw [hout]
        refine ⟨rfl, ?_, containsFinalizer_removeFinalizer_self _ _⟩
        show containsFinalizer (removeFinalizer gz.finalizers METRICS_FINALIZER_NAME)
          RESOURCES_FINALIZER_NAME = false
        rw [containsFinalizer_removeFinalizer_ne _ _ _ hne']
        exact hres0
      · have hmet0 : containsFinalizer gz.finalizers METRICS_FINALIZER_NAME = false :=
          Bool.eq_false_iff.mpr hmet
        have hout : zoneReconcile gz m true env =
            { trace := [], err := none, branch := .deleted,
              finalizers := gz.finalizers, patchedStatus := none } := by
          unfold zoneReconcile
          simp [hres0, hmet0]
        rw [hout]
        exact ⟨rfl, hres0, hmet0⟩
  · intro gz m env e hres hdel hnfe
    have hdel0 : deleteZoneExternalResources gz env.zonesDeleteErr = some e := by
      simp [deleteZoneExternalResources, hdel, hnfe]
    have hout : zoneReconcile gz m true env =
        { trace := [.backend .zonesDelete], err := some e, branch := .deleted,
          finalizers := gz.finalizers, patchedStatus := none } := by
      unfold zoneReconcile
      rw [hdel0]
      simp [hres]
    rw [hout]
    exact ⟨rfl, rfl, by simp [updatesOf]⟩

/-- C7 witness: the concrete deleted zone, once with a not-found delete reply
and once with a transport error. -/
theorem claim_C7_witness :
    ((zoneReconcile deletedZone false true
        { zoneEnvBase with zonesDeleteErr := some ZONE_NOT_FOUND_MSG }).err = none ∧
      containsFinalizer (zoneReconcile deletedZone false true
        { zoneEnvBase with zonesDeleteErr := some ZONE_NOT_FOUND_MSG }).finalizers
        RESOURCES_FINALIZER_NAME = false) ∧
    (zoneReconcile deletedZone false true
        { zoneEnvBase with zonesDeleteErr := some (("boom").data) }).finalizers
      = deletedZone.finalizers :=
  have h1 := claim_C7.2.1 deletedZone false
    { zoneEnvBase with zonesDeleteErr := some ZONE_NOT_FOUND_MSG } (Or.inr rfl)
  have h2 := claim_C7.2.2 deletedZone false
    { zoneEnvBase with zonesDeleteErr := some (("boom").data) } (("boom").data)
    (by decide) rfl (by decide)
  ⟨⟨h1.1, h1.2.1⟩, h2.2.1⟩

/-- C1 (divergence witness): two distinct ClusterRRsets are indexed under the
same non-empty `DnsEntryName/type` key, yet reconciling one of them does not
fail with RrsetDuplicated: the duplicate cardinality test
`len(rrsets) > 1 ∨ (len(rrsets) ≥ 1 ∧ len(clusterrrsets) ≥ 1)` ignores a pair
of ClusterRRsets alone, so the run dispatches to backend sync (backend calls
are issued) and patches SyncStatus Succeeded. -/
theorem claim_C1 :
    c1ClusterRRset ≠ c2ClusterRRset ∧
    clusterRRsetEntryIndexValue c1ClusterRRset = clusterRRsetEntryIndexValue c2ClusterRRset ∧
    clusterRRsetEntryIndexValue c1ClusterRRset ≠ [] ∧
    listClusterRRsetsByEntryName c1Store.clusterRRsets
        (clusterRRsetEntryIndexValue c1ClusterRRset) = [c1ClusterRRset, c2ClusterRRset] ∧
    (clusterRRsetDriverReconcile c1ClusterRRset c1Store sampleRRsetEnvEmpty).branch
      = DriverBranch.dispatched ∧
    ((clusterRRsetDriverReconcile c1ClusterRRset c1Store sampleRRsetEnvEmpty).patchedStatus.map
        RRsetStatus.syncStatus) = some (some SUCCEEDED_STATUS) ∧
    (clusterRRsetDriverReconcile c1ClusterRRset c1Store sampleRRsetEnvEmpty).trace.filter
        Ev.isBackend ≠ [] := by
  refine ⟨by decide, by decide, by decide, by decide, by decide, by decide, by decide⟩

/-- C3 (divergence witness): on the non-deleted, non-duplicate path, the
final status patch carries DnsEntryName, SyncStatus, ObservedGeneration and
LastUpdateTime, but its Conditions field is empty — the `Available` condition
the code computes right before the patch is discarded, not persisted. -/
theorem claim_C3 :
    (rrsetReconcile c3RRset sampleClusterZone false false 5 [c3RRset] []
        sampleRRsetEnvIdentical).branch = RRsetBranch.synced ∧
    (rrsetReconcile c3RRset sampleClusterZone false false 5 [c3RRset] []
        sampleRRsetEnvIdentical).patchedStatus = some c3ExpectedStatus ∧
    setStatusCondition c3RRset.status.conditions c3ComputedCondition ≠ [] := by
  refine ⟨by decide, by decide, by decide⟩

/-- C10: a ClusterRRset whose zoneRef kind is `Zone` can never resolve its
parent: the zone lookup uses the resource's own namespace, which is empty for
a cluster-scoped resource, so (no namespaced Zone existing in the empty
namespace) the driver always takes the zone-absent branch — requeue after
2 seconds, no backend call, and, when not deleted, a Pending status patch
with reason ZoneNotAvailable. -/
theorem claim_C10 (c : RRsetObj) (store : Store) (env : RRsetEnv)
    (hkind : c.spec.zoneRef.kind = ZoneRefKind.zone)
    (hns : c.ns = [])
    (hzones : ∀ z ∈ store.zones, z.ns ≠ []) :
    (clusterRRsetDriverReconcile c store env).branch = DriverBranch.zoneNotFound ∧
    (clusterRRsetDriverReconcile c store env).requeueAfterSeconds = some 2 ∧
    (clusterRRsetDriverReconcile c store env).trace.filter Ev.isBackend = [] ∧
    (c.deletionTimestamp = none →
      ∃ st, (clusterRRsetDriverReconcile c store env).patchedStatus = some st ∧
        st.syncStatus = some PENDING_STATUS ∧
        ∃ cond ∈ st.conditions,
          cond.type = AvailableConditionType ∧ cond.status = ConditionFalse ∧
          cond.reason = RrsetReasonZoneNotAvailable ∧
          cond.message = RrsetMessageNonExistentZone ++ env.lookupErrMsg) := by
  have hfind : store.zones.find? (fun z => z.ns == c.ns && z.name == c.spec.zoneRef.name)
      = none := by
    rw [List.find?_eq_none]
    intro z hz
    simp [hns, hzones z hz]
  unfold clusterRRsetDriverReconcile
  dsimp only
  rw [hkind]
  dsimp only
  rw [hfind]
  dsimp only
  refine ⟨rfl, rfl, ?_, ?_⟩
  · rw [List.filter_eq_nil_iff]
    intro e he
    simp only [List.mem_append] at he
    rcases he with ((he | he) | he) | he <;>
      (split at he <;> simp_all [Ev.isBackend])
  · intro hdel
    have hdel' : c.deletionTimestamp.isSome = false := by
      rw [hdel]
      rfl
    simp only [hdel', Bool.not_false, if_true]
    refine ⟨_, rfl, rfl, ?_⟩
    exact setStatusCondition_exists _ _

/-- C10 witness: the concrete ClusterRRset referencing a `Zone` while only a
namespaced Zone of that name exists. -/
theorem claim_C10_witness :
    (clusterRRsetDriverReconcile c10ClusterRRset c10Store sampleRRsetEnvEmpty).branch
        = DriverBranch.zoneNotFound ∧
    (clusterRRsetDriverReconcile c10ClusterRRset c10Store sampleRRsetEnvEmpty).requeueAfterSeconds
        = some 2 ∧
    (clusterRRsetDriverReconcile c10ClusterRRset c10Store
        sampleRRsetEnvEmpty).trace.filter Ev.isBackend = [] :=
  have h := claim_C10 c10ClusterRRset c10Store sampleRRsetEnvEmpty (by decide) (by decide)
    (by decide)
  ⟨h.1, h.2.1, h.2.2.1⟩
